import Mathlib

/-!
# Verification of `global-mock-inject.js`

A shallow embedding of the cross-tab mock-camera injection script
(`src/global-mock-inject.js`) and proofs about its behaviour.

Modelling conventions:

* The two `localStorage` keys are a `Store` record of two `Option String`
  fields (`none` = key absent).  JavaScript truthiness of a string value is
  `jsTruthyStr` (`null` and `""` are falsy).
* `JSON.parse` is an environment capability; it is passed in as a parameter
  `parse : String → Option MockData` (`none` = the call throws, which the
  script catches at line 23).
* Media tracks are natural-number identifiers.  A `MediaStream` is the list
  of its track ids; `track.stop()` adds the id to a stopped-id set held in
  the tab state; `track.clone()` allocates a fresh id backed by the same
  pixel source.
* The navigator entry point `navigator.mediaDevices.getUserMedia` is a slot
  of type `Option Fn`, where `Fn.native` is the browser implementation and
  `Fn.wrapper g` is the closure created by the g-th call to
  `overrideGetUserMedia`.  All wrappers read the module-level variables
  (`isMockActive`, `mockStream`, `originalGetUserMedia`) at call time,
  exactly as the JavaScript closures do.
* Stream synthesis (`createVideoStreamFromData` / `createImageStreamFromData`)
  touches canvas/`captureStream`, which are host primitives; their outcome is
  passed in as parameters `videoSynth imageSynth : String → Except MockError
  (List Nat)`.  The per-frame redraw loop of the video path is modelled
  separately and faithfully by `drawFrameStep`.
* Each synchronously-executed JavaScript job (an event handler body, a
  promise continuation) is one atomic transition; the event-loop yield
  points are the boundaries between transitions.
-/

namespace MockCam

/-- The parsed shape of the `globalMockCameraData` JSON value:
`{ type: "video"|"image", data: <data-URI string> }`. -/
structure MockData where
  type : String
  data : String
deriving DecidableEq, Repr

/-- The two origin-scoped shared-store keys read by the script
(`localStorage.getItem` returns `null` or a string). -/
structure Store where
  globalMockCameraActive : Option String
  globalMockCameraData : Option String
deriving DecidableEq, Repr

/-- JavaScript truthiness of a nullable string: `null` and `""` are falsy. -/
def jsTruthyStr : Option String → Bool
  | none => false
  | some s => !s.isEmpty

/-- Return value of `checkMockCameraStatus` (lines 12–30). -/
structure Status where
  active : Bool
  data : Option MockData
deriving DecidableEq, Repr

/-- Lines 12–30.  Reads both keys; when the flag is the string `"true"` and
the data value is truthy, attempts `JSON.parse`; a parse throw is caught
(line 23) and mapped to `{active: false, data: null}`, as is every other
fall-through. -/
def checkMockCameraStatus (parse : String → Option MockData) (store : Store) :
    Status :=
  let isActive := store.globalMockCameraActive == some "true"
  if isActive && jsTruthyStr store.globalMockCameraData then
    match store.globalMockCameraData with
    | some raw =>
      match parse raw with
      | some d => ⟨true, some d⟩
      | none => ⟨false, none⟩
    | none => ⟨false, none⟩
  else
    ⟨false, none⟩

/-- The error values produced by the synthesis layer. -/
inductive MockError where
  | unsupportedType
  | mediaLoadError
deriving DecidableEq, Repr

/-- Lines 33–46.  Dispatches on `mockData.type`: `"video"` and `"image"`
delegate to the respective synthesizer; anything else rejects with
`new Error('Unsupported mock data type')`.  The promise is modelled as
`Except`. -/
def createMockStreamFromData
    (videoSynth imageSynth : String → Except MockError (List Nat))
    (mockData : MockData) : Except MockError (List Nat) :=
  if mockData.type == "video" then videoSynth mockData.data
  else if mockData.type == "image" then imageSynth mockData.data
  else .error .unsupportedType

/-- Observable state of the hidden `<video>` element driving the redraw
loop of `createVideoStreamFromData`. -/
structure VideoEl where
  paused : Bool
  ended : Bool
deriving DecidableEq, Repr

/-- The guard of `drawFrame` (line 64): `!video.paused && !video.ended`. -/
def drawFrameContinues (v : VideoEl) : Bool :=
  !v.paused && !v.ended

/-- Resources held by one video synthesis: the hidden source element, the
ids of the captured stream's tracks, the set of stopped track ids, and
whether a `drawFrame` callback is currently scheduled via
`requestAnimationFrame`. -/
structure VideoSynthState where
  video : VideoEl
  streamTracks : List Nat
  stoppedTracks : List Nat
  loopScheduled : Bool
deriving DecidableEq, Repr

/-- `track.stop()` on every track of the captured stream.  Stopping a
canvas-capture track does not pause or end the hidden source element. -/
def stopAllCapturedTracks (st : VideoSynthState) : VideoSynthState :=
  { st with stoppedTracks := st.streamTracks ++ st.stoppedTracks }

/-- One firing of the scheduled `drawFrame` callback (lines 63–68): if the
source is neither paused nor ended it draws the frame and calls
`requestAnimationFrame(drawFrame)` again, otherwise it returns without
rescheduling. -/
def drawFrameStep (st : VideoSynthState) : VideoSynthState :=
  if st.loopScheduled && drawFrameContinues st.video then st
  else { st with loopScheduled := false }

/-- A value that can sit in the `navigator.mediaDevices.getUserMedia` slot:
the browser's native implementation, or the wrapper closure created by the
`gen`-th execution of `overrideGetUserMedia`. -/
inductive Fn where
  | native
  | wrapper (gen : Nat)
deriving DecidableEq, Repr

/-- Per-tab state: the three module-level variables of the script
(`mockStream`, `isMockActive`, `originalGetUserMedia`), the navigator slot
(`none` when the environment has no `mediaDevices.getUserMedia`), a counter
of wrapper closures created, plus the track world (next fresh id and the
set of stopped ids). -/
structure TabState where
  mockStream : Option (List Nat)
  isMockActive : Bool
  originalGetUserMedia : Option Fn
  slot : Option Fn
  installCount : Nat
  nextTrackId : Nat
  stoppedTracks : List Nat
deriving DecidableEq, Repr

/-- Lines 100–125.  If the navigator slot holds a function, capture its
current (bound) value into `originalGetUserMedia` and replace it with a
freshly created wrapper closure.  Note the guard only checks that the slot
is occupied — it does not check `originalGetUserMedia == null`. -/
def overrideGetUserMedia (s : TabState) : TabState :=
  match s.slot with
  | some f =>
    { s with
      originalGetUserMedia := some f
      slot := some (.wrapper s.installCount)
      installCount := s.installCount + 1 }
  | none => s

/-- Lines 128–134.  If `originalGetUserMedia` is non-null, put it back in
the navigator slot and null the variable; otherwise do nothing. -/
def restoreGetUserMedia (s : TabState) : TabState :=
  match s.originalGetUserMedia with
  | some f => { s with slot := some f, originalGetUserMedia := none }
  | none => s

/-- `mockStream.getTracks().forEach(track => clonedStream.addTrack(track.clone()))`:
cloning `n` tracks allocates the fresh ids `start, start+1, …, start+n-1`. -/
def cloneIds (start n : Nat) : List Nat :=
  (List.range n).map (start + ·)

/-- `track.stop()` on each of the given ids. -/
def stopTracks (ids : List Nat) (s : TabState) : TabState :=
  { s with stoppedTracks := ids ++ s.stoppedTracks }

/-- Outcome of invoking the navigator slot. -/
inductive CallOutcome where
  | mockResolved (tracks : List Nat)
  | realCall (constraints : String)
  | typeError
  | outOfFuel
deriving DecidableEq, Repr

/-- Invoking a function value found in the navigator slot with the caller's
`constraints` (lines 106–121 for the wrapper).  The wrapper reads the
module variables at call time: when `isMockActive && mockStream` it builds
a new `MediaStream` of fresh clones of `mockStream`'s tracks and returns it
in a resolved promise; otherwise it invokes the module-level
`originalGetUserMedia(constraints)` (a `TypeError` when that variable is
null).  `fuel` bounds the JavaScript call stack. -/
def callFn (fuel : Nat) (f : Fn) (s : TabState) (c : String) :
    CallOutcome × TabState :=
  match fuel, f with
  | _, .native => (.realCall c, s)
  | 0, .wrapper _ => (.outOfFuel, s)
  | fuel + 1, .wrapper _ =>
    match s.isMockActive, s.mockStream with
    | true, some ts =>
      (.mockResolved (cloneIds s.nextTrackId ts.length),
       { s with nextTrackId := s.nextTrackId + ts.length })
    | _, _ =>
      match s.originalGetUserMedia with
      | some g => callFn fuel g s c
      | none => (.typeError, s)

/-- A page's call to `navigator.mediaDevices.getUserMedia(constraints)`. -/
def callGetUserMedia (fuel : Nat) (s : TabState) (c : String) :
    CallOutcome × TabState :=
  match s.slot with
  | some f => callFn fuel f s c
  | none => (.typeError, s)

/-- The page-load driver (lines 137–154 of the source, where it bears the
longer name ending in `MockCamera`) together with the resolution of the
synthesis promise.  The synchronous part reads the store once via
`checkMockCameraStatus`; when active with data it starts synthesis, whose
`.then` continuation (lines 143–147) stores the stream, sets
`isMockActive = true` and only then calls `overrideGetUserMedia()`; the
`.catch` continuation (lines 148–150) merely logs.  When the status is
inactive nothing changes. -/
def initMockCamera (parse : String → Option MockData)
    (videoSynth imageSynth : String → Except MockError (List Nat))
    (store : Store) (s : TabState) : TabState :=
  let status := checkMockCameraStatus parse store
  match status.active, status.data with
  | true, some d =>
    match createMockStreamFromData videoSynth imageSynth d with
    | .ok ts =>
      overrideGetUserMedia { s with mockStream := some ts, isMockActive := true }
    | .error _ => s
  | _, _ => s

/-- Lines 165–174: the storage-event branch taken when
`globalMockCameraActive` transitions to any value other than `"true"`:
stop every track of `mockStream`, null it, clear `isMockActive`, and call
`restoreGetUserMedia()`. -/
def storageDeactivate (s : TabState) : TabState :=
  let s1 :=
    match s.mockStream with
    | some ts => { s with stoppedTracks := ts ++ s.stoppedTracks, mockStream := none }
    | none => s
  restoreGetUserMedia { s1 with isMockActive := false }

/-- The tab state at script load (lines 7–9), in an environment whose
navigator does expose `mediaDevices.getUserMedia` (the deployment the
script targets; with the entry point absent the guard at line 101 makes
the whole script a no-op). -/
def initialState : TabState :=
  { mockStream := none
    isMockActive := false
    originalGetUserMedia := none
    slot := some .native
    installCount := 0
    nextTrackId := 0
    stoppedTracks := [] }

/-- One atomic event-loop job of the script, as observable after page
load.  `synthOk`/`synthErr` are the two continuations of the synthesis
promise started by `initMockCamera` (over-approximated: they may
fire in any state); `storageOn` is the storage-event branch for a
transition to `"true"`, whose synchronous body only schedules
`initMockCamera` (no state change; the later continuation is again
`synthOk`/`synthErr`); `storageOff` is the deactivation branch; `call` is
a page invoking the navigator slot; `stopTrack` is a page stopping a track
it received. -/
inductive Ev where
  | synthOk (ts : List Nat)
  | synthErr
  | storageOn
  | storageOff
  | call (fuel : Nat) (c : String)
  | stopTrack (id : Nat)

/-- The state transition performed by one event-loop job. -/
def step (e : Ev) (s : TabState) : TabState :=
  match e with
  | .synthOk ts =>
    overrideGetUserMedia { s with mockStream := some ts, isMockActive := true }
  | .synthErr => s
  | .storageOn => s
  | .storageOff => storageDeactivate s
  | .call fuel c => (callGetUserMedia fuel s c).2
  | .stopTrack id => { s with stoppedTracks := id :: s.stoppedTracks }

/-- Running a sequence of event-loop jobs from a state. -/
def run (evs : List Ev) (s : TabState) : TabState :=
  evs.foldl (fun s e => step e s) s

/-- C1: every call to the overridden wrapper either (when `isMockActive`
and `mockStream` is non-null) immediately returns a resolved promise
carrying a stream of fresh clones of `mockStream`'s tracks, or (in
Passthrough, or Mocking with no stream) delegates the call, with the
caller's constraints unchanged, to the entry point captured in
`originalGetUserMedia`, so the delegate's success/rejection outcome is
returned verbatim. -/
theorem C1_wrapper_behavior (fuel gen : Nat) (s : TabState) (c : String) :
    (∀ ts, s.isMockActive = true → s.mockStream = some ts →
      callFn (fuel + 1) (.wrapper gen) s c =
        (.mockResolved (cloneIds s.nextTrackId ts.length),
         { s with nextTrackId := s.nextTrackId + ts.length })) ∧
    ((s.isMockActive = false ∨ s.mockStream = none) →
      ∀ g, s.originalGetUserMedia = some g →
        callFn (fuel + 1) (.wrapper gen) s c = callFn fuel g s c) := by
  constructor
  · intro ts hact hstream
    simp [callFn, hact, hstream]
  · intro h g hg
    rcases h with h | h
    · cases hs : s.mockStream <;> simp [callFn, h, hs, hg]
    · cases hact : s.isMockActive <;> simp [callFn, h, hact, hg]

/-- Witness for C1: a concrete Mocking state returns clones `[2, 3]` of the
two stored tracks, and a concrete Passthrough state delegates to the
captured native entry point with the caller's constraints. -/
theorem C1_witness :
    callFn 2 (.wrapper 0)
        ⟨some [0, 1], true, some .native, some (.wrapper 0), 1, 2, []⟩ "v" =
      (.mockResolved [2, 3],
        ⟨some [0, 1], true, some .native, some (.wrapper 0), 1, 4, []⟩) ∧
    callFn 2 (.wrapper 0)
        ⟨none, false, some .native, some (.wrapper 0), 1, 0, []⟩ "v" =
      (.realCall "v", ⟨none, false, some .native, some (.wrapper 0), 1, 0, []⟩) := by
  constructor
  · have h := (C1_wrapper_behavior 1 0
      ⟨some [0, 1], true, some .native, some (.wrapper 0), 1, 2, []⟩ "v").1 [0, 1] rfl rfl
    simpa [cloneIds] using h
  · have h := (C1_wrapper_behavior 1 0
      ⟨none, false, some .native, some (.wrapper 0), 1, 0, []⟩ "v").2 (Or.inl rfl) .native rfl
    rw [h]
    rfl

/-- C9: in the mock branch the wrapper never inspects its constraints
argument — two calls in the same Mocking-with-stream state with any two
constraints values produce identical outcomes and identical successor
states. -/
theorem C9_constraints_not_inspected (fuel gen : Nat) (s : TabState) (ts : List Nat)
    (hact : s.isMockActive = true) (hstream : s.mockStream = some ts)
    (c1 c2 : String) :
    callFn (fuel + 1) (.wrapper gen) s c1 = callFn (fuel + 1) (.wrapper gen) s c2 := by
  simp [callFn, hact, hstream]

/-- Witness for C9: video-only and audio-only constraint strings give the
same result in a concrete Mocking state. -/
theorem C9_witness :
    callFn 3 (.wrapper 0) ⟨some [7], true, some .native, some (.wrapper 0), 1, 8, []⟩
        "videoOnly" =
      callFn 3 (.wrapper 0) ⟨some [7], true, some .native, some (.wrapper 0), 1, 8, []⟩
        "audioOnly" :=
  C9_constraints_not_inspected 2 0 _ [7] rfl rfl "videoOnly" "audioOnly"

/-- C3 evaluation: the guard of `overrideGetUserMedia` (line 101) only
checks that the navigator slot is occupied, so a second install captures
the first wrapper as `originalGetUserMedia`; a single subsequent
`restoreGetUserMedia` then leaves the first wrapper — not the native
function — in the slot. -/
theorem C3_double_install_double_wraps :
    (restoreGetUserMedia (overrideGetUserMedia (overrideGetUserMedia initialState))).slot =
      some (.wrapper 0) ∧
    (restoreGetUserMedia (overrideGetUserMedia (overrideGetUserMedia initialState))).slot ≠
      some .native := by
  decide

/-- C4 evaluation: with the hidden source video playing (not paused, not
ended) and the redraw loop scheduled, stopping every track of the captured
stream leaves the `drawFrame` guard true, so the loop reschedules itself —
the guard (line 64) reads only `video.paused`/`video.ended` and is
unaffected by track state. -/
theorem C4_stop_tracks_leaves_loop_running :
    (drawFrameStep (stopAllCapturedTracks ⟨⟨false, false⟩, [0], [], true⟩)).loopScheduled =
      true ∧
    (stopAllCapturedTracks ⟨⟨false, false⟩, [0], [], true⟩).stoppedTracks = [0] ∧
    drawFrameContinues (stopAllCapturedTracks ⟨⟨false, false⟩, [0], [], true⟩).video = true := by
  decide

/-- C2 counterexample: with the activation flag absent (so not `"true"`)
and a perfectly good descriptor in the store, the complete page-load
initialization leaves `originalGetUserMedia` null and the navigator slot
holding the native function — no override is ever installed, refuting the
claim that the driver installs the override on every page load before
reading the store. -/
theorem C2_counterexample :
    (initMockCamera (fun _ => some ⟨"image", "d"⟩) (fun _ => .ok [0]) (fun _ => .ok [0])
        ⟨none, some "{}"⟩ initialState).originalGetUserMedia = none ∧
    (initMockCamera (fun _ => some ⟨"image", "d"⟩) (fun _ => .ok [0]) (fun _ => .ok [0])
        ⟨none, some "{}"⟩ initialState).slot = some .native ∧
    initMockCamera (fun _ => some ⟨"image", "d"⟩) (fun _ => .ok [0]) (fun _ => .ok [0])
        ⟨none, some "{}"⟩ initialState = initialState :=
  ⟨rfl, rfl, rfl⟩

/-- C2 amended: on page load the driver reads the shared store once first;
when the resulting status is inactive it changes nothing (and installs no
override), and when the flag is true with a parsed descriptor and synthesis
succeeds it stores the stream, sets Mocking, and only then installs the
override capturing the original entry point. -/
theorem C2_amended_read_then_install (parse : String → Option MockData)
    (videoSynth imageSynth : String → Except MockError (List Nat))
    (store : Store) (s : TabState) :
    ((checkMockCameraStatus parse store).active = false →
      initMockCamera parse videoSynth imageSynth store s = s) ∧
    (∀ d ts, checkMockCameraStatus parse store = ⟨true, some d⟩ →
      createMockStreamFromData videoSynth imageSynth d = .ok ts →
      initMockCamera parse videoSynth imageSynth store s =
        overrideGetUserMedia { s with mockStream := some ts, isMockActive := true }) := by
  constructor
  · intro h
    rcases hst : checkMockCameraStatus parse store with ⟨a, d⟩
    have ha : a = false := by rw [hst] at h; exact h
    subst ha
    simp [initMockCamera, hst]
  · intro d ts hst hok
    simp [initMockCamera, hst, hok]

/-- Witness for the amended C2: with the flag `"true"` and an image
descriptor whose synthesis yields track `[5]`, initialization ends in the
activated, overridden state. -/
theorem C2_amended_witness :
    initMockCamera (fun _ => some ⟨"image", "d"⟩) (fun _ => .ok [5]) (fun _ => .ok [5])
        ⟨some "true", some "{}"⟩ initialState =
      overrideGetUserMedia
        { initialState with mockStream := some [5], isMockActive := true } :=
  (C2_amended_read_then_install (fun _ => some ⟨"image", "d"⟩) (fun _ => .ok [5])
    (fun _ => .ok [5]) ⟨some "true", some "{}"⟩ initialState).2 ⟨"image", "d"⟩ [5] rfl rfl

/-- C5: whenever the activation flag is the string `"true"` but the
descriptor key is absent or its value does not parse as JSON (the
`JSON.parse` throw is caught at line 23), the status check reports
inactive with no data, and the page-load driver attempts no activation and
leaves the tab state untouched — the flag-true/descriptor-bad combination
is handled without any exception escaping. -/
theorem C5_flag_true_bad_descriptor (parse : String → Option MockData)
    (videoSynth imageSynth : String → Except MockError (List Nat))
    (store : Store) (s : TabState)
    (hflag : store.globalMockCameraActive = some "true")
    (hbad : store.globalMockCameraData = none ∨
      ∀ raw, store.globalMockCameraData = some raw → parse raw = none) :
    checkMockCameraStatus parse store = ⟨false, none⟩ ∧
    initMockCamera parse videoSynth imageSynth store s = s := by
  have hstat : checkMockCameraStatus parse store = ⟨false, none⟩ := by
    rcases hbad with h | h
    · simp [checkMockCameraStatus, h, jsTruthyStr]
    · rcases hd : store.globalMockCameraData with _ | raw
      · simp [checkMockCameraStatus, hd, jsTruthyStr]
      · have hp := h raw hd
        by_cases hre : raw.isEmpty
        · simp [checkMockCameraStatus, hd, jsTruthyStr, hre]
        · simp [checkMockCameraStatus, hd, jsTruthyStr, hre, hp, hflag]
  exact ⟨hstat, by simp [initMockCamera, hstat]⟩

/-- Witness for C5: flag `"true"` with an unparsable descriptor string is
reported inactive and leaves the fresh tab state unchanged. -/
theorem C5_witness :
    checkMockCameraStatus (fun _ => none) ⟨some "true", some "notjson"⟩ = ⟨false, none⟩ ∧
    initMockCamera (fun _ => none) (fun _ => .ok []) (fun _ => .ok [])
      ⟨some "true", some "notjson"⟩ initialState = initialState :=
  C5_flag_true_bad_descriptor (fun _ => none) (fun _ => .ok []) (fun _ => .ok [])
    ⟨some "true", some "notjson"⟩ initialState rfl (Or.inr fun _ _ => rfl)

/-- C6: a descriptor whose `type` is neither `"video"` nor `"image"` makes
`createMockStreamFromData` reject with the unsupported-type error; the
driver's `.catch` (lines 148–150) swallows it, so a tab that was in
Passthrough stays there — `isMockActive` remains false, no stream is
stored, and the state is completely unchanged (no error reaches the host
page). -/
theorem C6_unsupported_type (parse : String → Option MockData)
    (videoSynth imageSynth : String → Except MockError (List Nat))
    (store : Store) (s : TabState) (d : MockData)
    (hv : d.type ≠ "video") (hi : d.type ≠ "image")
    (hstat : checkMockCameraStatus parse store = ⟨true, some d⟩)
    (hact : s.isMockActive = false) (hstream : s.mockStream = none) :
    createMockStreamFromData videoSynth imageSynth d = .error .unsupportedType ∧
    initMockCamera parse videoSynth imageSynth store s = s ∧
    (initMockCamera parse videoSynth imageSynth store s).isMockActive = false ∧
    (initMockCamera parse videoSynth imageSynth store s).mockStream = none := by
  have hc : createMockStreamFromData videoSynth imageSynth d = .error .unsupportedType := by
    simp [createMockStreamFromData, hv, hi]
  have hinit : initMockCamera parse videoSynth imageSynth store s = s := by
    simp [initMockCamera, hstat, hc]
  exact ⟨hc, hinit, by rw [hinit]; exact hact, by rw [hinit]; exact hstream⟩

/-- Witness for C6: the spec's own example `{"type":"audio","data":"x"}`
rejects with the unsupported-type error and leaves a fresh tab unchanged. -/
theorem C6_witness :
    createMockStreamFromData (fun _ => .ok []) (fun _ => .ok []) ⟨"audio", "x"⟩ =
      .error .unsupportedType ∧
    initMockCamera (fun _ => some ⟨"audio", "x"⟩) (fun _ => .ok []) (fun _ => .ok [])
      ⟨some "true", some "j"⟩ initialState = initialState ∧
    (initMockCamera (fun _ => some ⟨"audio", "x"⟩) (fun _ => .ok []) (fun _ => .ok [])
      ⟨some "true", some "j"⟩ initialState).isMockActive = false ∧
    (initMockCamera (fun _ => some ⟨"audio", "x"⟩) (fun _ => .ok []) (fun _ => .ok [])
      ⟨some "true", some "j"⟩ initialState).mockStream = none :=
  C6_unsupported_type (fun _ => some ⟨"audio", "x"⟩) (fun _ => .ok []) (fun _ => .ok [])
    ⟨some "true", some "j"⟩ initialState ⟨"audio", "x"⟩
    (by decide) (by decide) rfl rfl rfl

/-- C7: the deactivation branch of the storage handler stops every track
of the current stream, nulls it, clears `isMockActive`, and puts the
captured entry point back in the navigator slot while nulling
`originalGetUserMedia`; running deactivation again immediately changes
nothing (idempotence); and when the captured entry point was the native
one — as after a single activate — every later camera call reaches the
real implementation and never a mock stream. -/
theorem C7_deactivate_restores (s : TabState) (ts : List Nat) (f : Fn)
    (hstream : s.mockStream = some ts)
    (horig : s.originalGetUserMedia = some f) :
    (∀ t ∈ ts, t ∈ (storageDeactivate s).stoppedTracks) ∧
    (storageDeactivate s).mockStream = none ∧
    (storageDeactivate s).isMockActive = false ∧
    (storageDeactivate s).slot = some f ∧
    (storageDeactivate s).originalGetUserMedia = none ∧
    storageDeactivate (storageDeactivate s) = storageDeactivate s ∧
    (f = .native → ∀ fuel c,
      callGetUserMedia fuel (storageDeactivate s) c = (.realCall c, storageDeactivate s)) := by
  obtain ⟨ms, ia, og, sl, ic, nt, st⟩ := s
  simp only [TabState.mk.injEq] at hstream horig
  refine ⟨?_, ?_, ?_, ?_, ?_, ?_, ?_⟩
  · intro t ht
    simp [storageDeactivate, restoreGetUserMedia, hstream, horig, ht]
  · simp [storageDeactivate, restoreGetUserMedia, hstream, horig]
  · simp [storageDeactivate, restoreGetUserMedia, hstream, horig]
  · simp [storageDeactivate, restoreGetUserMedia, hstream, horig]
  · simp [storageDeactivate, restoreGetUserMedia, hstream, horig]
  · simp [storageDeactivate, restoreGetUserMedia, hstream, horig]
  · intro hf fuel c
    subst hf
    simp [storageDeactivate, restoreGetUserMedia, hstream, horig,
      callGetUserMedia, callFn]

/-- Witness for C7: deactivating a concrete activated state stops tracks
`0` and `1`, clears everything, restores the native entry point, is
idempotent, and a subsequent camera call reaches the real camera. -/
theorem C7_witness :
    (∀ t ∈ ([0, 1] : List Nat),
      t ∈ (storageDeactivate
        ⟨some [0, 1], true, some .native, some (.wrapper 0), 1, 2, []⟩).stoppedTracks) ∧
    (storageDeactivate
      ⟨some [0, 1], true, some .native, some (.wrapper 0), 1, 2, []⟩).mockStream = none ∧
    (storageDeactivate
      ⟨some [0, 1], true, some .native, some (.wrapper 0), 1, 2, []⟩).isMockActive = false ∧
    (storageDeactivate
      ⟨some [0, 1], true, some .native, some (.wrapper 0), 1, 2, []⟩).slot = some .native ∧
    (storageDeactivate
      ⟨some [0, 1], true, some .native, some (.wrapper 0), 1, 2, []⟩).originalGetUserMedia
      = none ∧
    storageDeactivate (storageDeactivate
      ⟨some [0, 1], true, some .native, some (.wrapper 0), 1, 2, []⟩) =
      storageDeactivate
        ⟨some [0, 1], true, some .native, some (.wrapper 0), 1, 2, []⟩ ∧
    (Fn.native = .native → ∀ fuel c,
      callGetUserMedia fuel (storageDeactivate
        ⟨some [0, 1], true, some .native, some (.wrapper 0), 1, 2, []⟩) c =
        (.realCall c, storageDeactivate
          ⟨some [0, 1], true, some .native, some (.wrapper 0), 1, 2, []⟩)) :=
  C7_deactivate_restores
    ⟨some [0, 1], true, some .native, some (.wrapper 0), 1, 2, []⟩ [0, 1] .native rfl rfl

/-- C8: clone independence.  In a Mocking state whose track ids are fresh
(all allocated below `nextTrackId`) and live, a wrapper call returns fresh
clone ids; stopping every one of those clones leaves every track of the
shared `mockStream` unstopped and the stream itself in place, and a second
wrapper call still returns a stream of fresh live clones of the same
underlying tracks. -/
theorem C8_clone_independence (s : TabState) (ts : List Nat) (gen fuel fuel2 : Nat)
    (c1 c2 : String)
    (hact : s.isMockActive = true) (hstream : s.mockStream = some ts)
    (hfresh : ∀ t ∈ ts, t < s.nextTrackId)
    (hlive : ∀ t ∈ ts, t ∉ s.stoppedTracks)
    (hstopFresh : ∀ t ∈ s.stoppedTracks, t < s.nextTrackId) :
    callFn (fuel + 1) (.wrapper gen) s c1 =
      (.mockResolved (cloneIds s.nextTrackId ts.length),
       { s with nextTrackId := s.nextTrackId + ts.length }) ∧
    (∀ t ∈ ts, t ∉ (stopTracks (cloneIds s.nextTrackId ts.length)
        { s with nextTrackId := s.nextTrackId + ts.length }).stoppedTracks) ∧
    (stopTracks (cloneIds s.nextTrackId ts.length)
        { s with nextTrackId := s.nextTrackId + ts.length }).mockStream = some ts ∧
    (callFn (fuel2 + 1) (.wrapper gen)
        (stopTracks (cloneIds s.nextTrackId ts.length)
          { s with nextTrackId := s.nextTrackId + ts.length }) c2).1 =
      .mockResolved (cloneIds (s.nextTrackId + ts.length) ts.length) ∧
    (∀ t ∈ cloneIds (s.nextTrackId + ts.length) ts.length,
      t ∉ (stopTracks (cloneIds s.nextTrackId ts.length)
          { s with nextTrackId := s.nextTrackId + ts.length }).stoppedTracks) := by
  refine ⟨?_, ?_, ?_, ?_, ?_⟩
  · simp [callFn, hact, hstream]
  · intro t ht
    have h1 := hfresh t ht
    have h2 := hlive t ht
    simp only [stopTracks, List.mem_append, cloneIds, List.mem_map, List.mem_range]
    push_neg
    refine ⟨fun i _ => ?_, h2⟩
    omega
  · simp [stopTracks, hstream]
  · simp [callFn, hact, hstream, stopTracks]
  · intro t ht
    simp only [cloneIds, List.mem_map, List.mem_range] at ht
    obtain ⟨i, hi, rfl⟩ := ht
    simp only [stopTracks, List.mem_append, cloneIds, List.mem_map, List.mem_range]
    push_neg
    refine ⟨fun j hj => ?_, fun hmem => ?_⟩
    · omega
    · exact absurd (hstopFresh _ hmem) (by omega)

/-- Witness for C8 in a concrete Mocking state with tracks `[0, 1]`:
the first call clones to `[2, 3]`, stopping those leaves `0` and `1`
live, and the second call clones to `[4, 5]`, also live. -/
theorem C8_witness :
    callFn 1 (.wrapper 0) ⟨some [0, 1], true, some .native, some (.wrapper 0), 1, 2, []⟩
        "a" =
      (.mockResolved (cloneIds 2 2),
       { mockStream := some [0, 1], isMockActive := true,
         originalGetUserMedia := some .native, slot := some (.wrapper 0),
         installCount := 1, nextTrackId := 2 + 2,
         stoppedTracks := ([] : List Nat) }) ∧
    (∀ t ∈ ([0, 1] : List Nat), t ∉ (stopTracks (cloneIds 2 2)
        { mockStream := some [0, 1], isMockActive := true,
          originalGetUserMedia := some .native, slot := some (.wrapper 0),
          installCount := 1, nextTrackId := 2 + 2,
          stoppedTracks := ([] : List Nat) }).stoppedTracks) ∧
    (stopTracks (cloneIds 2 2)
        { mockStream := some [0, 1], isMockActive := true,
          originalGetUserMedia := some .native, slot := some (.wrapper 0),
          installCount := 1, nextTrackId := 2 + 2,
          stoppedTracks := ([] : List Nat) }).mockStream = some [0, 1] ∧
    (callFn 1 (.wrapper 0)
        (stopTracks (cloneIds 2 2)
          { mockStream := some [0, 1], isMockActive := true,
            originalGetUserMedia := some .native, slot := some (.wrapper 0),
            installCount := 1, nextTrackId := 2 + 2,
            stoppedTracks := ([] : List Nat) }) "b").1 =
      .mockResolved (cloneIds (2 + 2) 2) ∧
    (∀ t ∈ cloneIds (2 + 2) 2, t ∉ (stopTracks (cloneIds 2 2)
        { mockStream := some [0, 1], isMockActive := true,
          originalGetUserMedia := some .native, slot := some (.wrapper 0),
          installCount := 1, nextTrackId := 2 + 2,
          stoppedTracks := ([] : List Nat) }).stoppedTracks) := by
  have h := C8_clone_independence
    ⟨some [0, 1], true, some .native, some (.wrapper 0), 1, 2, []⟩ [0, 1] 0 0 0 "a" "b"
    rfl rfl (by decide) (by decide) (by decide)
  simpa using h

/-- The steady-state invariant: the navigator slot stays occupied, and an
active mock implies both a stored stream and a captured original entry
point. -/
def Inv (s : TabState) : Prop :=
  s.slot ≠ none ∧
    (s.isMockActive = true → s.mockStream ≠ none ∧ s.originalGetUserMedia ≠ none)

/-- Invoking any function in the slot can allocate track ids but never
changes the stream, the flag, the captured original, or the slot. -/
theorem callFn_control_fields (fuel : Nat) (f : Fn) (s : TabState) (c : String) :
    (callFn fuel f s c).2.mockStream = s.mockStream ∧
    (callFn fuel f s c).2.isMockActive = s.isMockActive ∧
    (callFn fuel f s c).2.originalGetUserMedia = s.originalGetUserMedia ∧
    (callFn fuel f s c).2.slot = s.slot := by
  induction fuel generalizing f with
  | zero => cases f <;> simp [callFn]
  | succ n ih =>
    cases f with
    | native => simp [callFn]
    | wrapper g =>
      cases hact : s.isMockActive with
      | true =>
        cases hstream : s.mockStream with
        | some ts => simp [callFn, hact, hstream]
        | none =>
          cases horig : s.originalGetUserMedia with
          | some g2 => simpa [callFn, hact, hstream, horig] using ih g2
          | none => simp [callFn, hact, hstream, horig]
      | false =>
        cases horig : s.originalGetUserMedia with
        | some g2 =>
          cases hstream : s.mockStream <;>
            simpa [callFn, hact, hstream, horig] using ih g2
        | none =>
          cases hstream : s.mockStream <;> simp [callFn, hact, hstream, horig]

/-- Every event-loop job preserves the steady-state invariant. -/
theorem step_preserves_inv (e : Ev) (s : TabState) (h : Inv s) : Inv (step e s) := by
  obtain ⟨hslot, hact⟩ := h
  cases e with
  | synthOk ts =>
    rcases hs : s.slot with _ | f
    · exact absurd hs hslot
    · constructor
      · simp [step, overrideGetUserMedia, hs]
      · intro _
        simp [step, overrideGetUserMedia, hs]
  | synthErr => exact ⟨hslot, hact⟩
  | storageOn => exact ⟨hslot, hact⟩
  | storageOff =>
    obtain ⟨ms, ia, og, sl, ic, nt, st⟩ := s
    constructor
    · cases ms <;> cases og <;>
        simp [step, storageDeactivate, restoreGetUserMedia] <;>
        simpa using hslot
    · intro hcontra
      exfalso
      revert hcontra
      cases ms <;> cases og <;> simp [step, storageDeactivate, restoreGetUserMedia]
  | call fuel c =>
    rcases hs : s.slot with _ | f
    · exact absurd hs hslot
    · have hf := callFn_control_fields fuel f s c
      constructor
      · simp [step, callGetUserMedia, hs, hf.2.2.2]
      · intro ha
        simp only [step, callGetUserMedia, hs, hf.1, hf.2.1, hf.2.2.1] at ha ⊢
        exact hact ha
  | stopTrack id => exact ⟨hslot, hact⟩

/-- The invariant holds in every state reachable by event-loop jobs from a
state satisfying it. -/
theorem run_preserves_inv (evs : List Ev) (s : TabState) (h : Inv s) :
    Inv (run evs s) := by
  induction evs generalizing s with
  | nil => exact h
  | cons e rest ih => exact ih (step e s) (step_preserves_inv e s h)

/-- C10: in every state reachable from script load by event-loop jobs, an
active mock flag implies a non-null `mockStream`, a non-null captured
`originalGetUserMedia`, and an occupied navigator slot; consequently the
wrapper's Mocking-with-no-stream fallback is unreachable — in such a state
every wrapper invocation takes the clone branch. -/
theorem C10_steady_state_invariant (evs : List Ev)
    (h : (run evs initialState).isMockActive = true) :
    (run evs initialState).mockStream ≠ none ∧
    (run evs initialState).originalGetUserMedia ≠ none ∧
    (run evs initialState).slot ≠ none ∧
    (∀ ts, (run evs initialState).mockStream = some ts →
      ∀ fuel gen c, (callFn (fuel + 1) (.wrapper gen) (run evs initialState) c).1 =
        .mockResolved (cloneIds (run evs initialState).nextTrackId ts.length)) := by
  have hinv : Inv (run evs initialState) :=
    run_preserves_inv evs initialState ⟨by simp [initialState], by simp [initialState]⟩
  refine ⟨(hinv.2 h).1, (hinv.2 h).2, hinv.1, ?_⟩
  intro ts hts fuel gen c
  simp [callFn, h, hts]

/-- Witness for C10: after the event trace consisting of one successful
synthesis continuation, the mock is active and all three resources are in
place, and a wrapper invocation clones the stored track. -/
theorem C10_witness :
    (run [.synthOk [0]] initialState).mockStream ≠ none ∧
    (run [.synthOk [0]] initialState).originalGetUserMedia ≠ none ∧
    (run [.synthOk [0]] initialState).slot ≠ none ∧
    (∀ ts, (run [.synthOk [0]] initialState).mockStream = some ts →
      ∀ fuel gen c, (callFn (fuel + 1) (.wrapper gen) (run [.synthOk [0]] initialState) c).1 =
        .mockResolved (cloneIds (run [.synthOk [0]] initialState).nextTrackId ts.length)) :=
  C10_steady_state_invariant [.synthOk [0]] rfl

end MockCam
